import Mathlib

/-!
Shallow embedding of the B-spline construction and evaluation subsystem of the
`enterpolation` crate (files `src/bspline/builder.rs`, `src/base/space.rs`,
`src/lib.rs`), together with models of the collaborating pieces the builders
call into (the sortedness guard, the boundary adaptors, the terminal
`BSpline::new` validation and the De Boor evaluator), which are not part of
the given sources and are therefore modelled from the specification.

Scalars and control elements are embedded as rationals; `usize` arithmetic is
embedded as `Nat` (with `Option` results where the source arithmetic can
underflow, `none` modelling the debug-mode panic).
-/

namespace Enterpolation

/-- Error kinds of the construction front end (spec section 7; the builder
source imports `BSplineError`, `InvalidDegree` and `NotSorted`).
`invalidDegree` carries the signed degree the source computes
(`isize` in `BSplineDirector::knots` for clamped curves). -/
inductive BSplineError where
  | notSorted : BSplineError
  | invalidDegree : ℤ → BSplineError
  | tooFewElements : BSplineError
  | invalidNumberKnots : BSplineError
  | tooSmallWorkspace : BSplineError
  | emptyGenerator : BSplineError
deriving DecidableEq, Repr

/-- Whether an error is of the `InvalidDegree` kind. -/
def BSplineError.isInvalidDegree : BSplineError → Bool
  | .invalidDegree _ => true
  | _ => false

instance {ε α : Type} [DecidableEq ε] [DecidableEq α] :
    DecidableEq (Except ε α) := fun x y =>
  match x, y with
  | .ok a, .ok b => decidable_of_iff (a = b) (by simp)
  | .error a, .error b => decidable_of_iff (a = b) (by simp)
  | .ok _, .error _ => isFalse (by simp)
  | .error _, .ok _ => isFalse (by simp)

/-- `ConstSpace::<T, N>::workspace` (src/base/space.rs, lines 33-44):
`[Default::default(); N]`, an array of `N` default values, freshly built on
every call. -/
def constSpaceWorkspace (α : Type) [Inhabited α] (N : ℕ) : List α :=
  List.replicate N default

/-- `ConstSpace::<T, N>::len` (src/base/space.rs, lines 38-40): the constant `N`. -/
def constSpaceLen (N : ℕ) : ℕ := N

/-- `DynSpace<T>` (src/base/space.rs, lines 70-73): a run-time workspace
descriptor holding only the requested length. -/
structure DynSpace where
  len : ℕ
deriving DecidableEq, Repr

/-- `DynSpace::workspace` (src/base/space.rs, lines 84-86):
`vec![Default::default(); self.len]`, a fresh vector of `len` default values
on every call; the struct holds no other state. -/
def DynSpace.workspace (α : Type) [Inhabited α] (s : DynSpace) : List α :=
  List.replicate s.len default

/-- `UnknownDomain<R>` (src/bspline/builder.rs, lines 39-59): intermediate
marker carrying the equidistant knot count and the degree. -/
structure UnknownDomain where
  len : ℕ
  deg : ℕ
deriving DecidableEq, Repr

namespace BSplineDirector

/-- `BSplineDirector::degree` in `Open` mode (src/bspline/builder.rs, lines
498-505): `UnknownDomain::new(self.elements.len() - 1 + degree, degree)`.
The source documents a panic when the number of elements is zero; callers
below always assume at least one element, under which the `Nat` subtraction
agrees with `usize`. -/
def degree (elementsLen deg : ℕ) : UnknownDomain :=
  ⟨elementsLen - 1 + deg, deg⟩

/-- `BSplineDirector::quantity` in `Open` mode (src/bspline/builder.rs, lines
516-523): `UnknownDomain::new(quantity, quantity - self.elements.len() + 1)`.
The source documents a panic when `quantity` is below the number of elements;
under `elementsLen ≤ q` the `Nat` subtraction agrees with `usize`. -/
def quantity (elementsLen q : ℕ) : UnknownDomain :=
  ⟨q, q - elementsLen + 1⟩

/-- `BSplineDirector::degree` in `Clamped` mode (src/bspline/builder.rs, lines
569-576): `UnknownDomain::new(self.elements.len() - degree + 1, degree)`. The
`usize` expression `elements.len() - degree` underflows when the degree
exceeds the number of elements (the source documents this panic); `none`
models that panic. -/
def degreeClamped (elementsLen deg : ℕ) : Option UnknownDomain :=
  if deg ≤ elementsLen then some ⟨elementsLen - deg + 1, deg⟩ else none

/-- The duplicate count `self.knots.deg() - 1` which
`BSplineDirector::domain`, `normalized` and `distance` in `Clamped` mode pass
to `BorderBuffer::new` (src/bspline/builder.rs, lines 697-723). The `usize`
subtraction underflows when the stored degree is `0`; `none` models that
debug-mode panic. -/
def clampedDomainDup (u : UnknownDomain) : Option ℕ :=
  if u.deg = 0 then none else some (u.deg - 1)

/-- `BSplineDirector::dynamic` (src/bspline/builder.rs, lines 765-772):
`DynSpace::new(self.knots.len() - self.elements.len() + 2)`. The `usize`
expression evaluates `knots.len() - elements.len()` first, which underflows
whenever there are more elements than knots; `none` models that debug-mode
panic. -/
def dynamic (knotsLen elementsLen : ℕ) : Option DynSpace :=
  if elementsLen ≤ knotsLen then some ⟨knotsLen - elementsLen + 2⟩ else none

end BSplineDirector

/-- Modelled from the spec: the sortedness test of the knot guard
`Sorted::new` (spec section 4.1, not under src/): non-decreasing order,
violated at the first index with `knot[i] > knot[i+1]`. -/
def sortedCheck : List ℚ → Bool
  | [] => true
  | [_] => true
  | a :: b :: r => decide (a ≤ b) && sortedCheck (b :: r)

/-- Modelled from the spec: `Sorted::new` (spec section 4.1, not under src/):
wraps the sequence unchanged on success, fails with `NotSorted` otherwise. -/
def sortedNew (ks : List ℚ) : Except BSplineError (List ℚ) :=
  if sortedCheck ks then .ok ks else .error .notSorted

/-- Modelled from the spec: the clamped boundary adaptor `BorderBuffer`
(spec section 4.1, not under src/): a core sequence of length `L` with its
first and last values repeated `k` times each, logical length `L + 2k`;
materialized here as a list. -/
def borderBuffer (core : List ℚ) (k : ℕ) : List ℚ :=
  List.replicate k (core.headD 0) ++ core ++ List.replicate k (core.getLastD 0)

/-- Modelled from the spec: the legacy boundary adaptor `BorderDeletion`
(spec section 2 "Legacy deletion", not under src/): the input already carries
the classical literally-duplicated boundary knots, of which the first and the
last knot are never used by the evaluator, so the adaptor drops exactly one
knot at each border; it fails when fewer than two knots are supplied. This is
the reading under which the spec's own mode-equality example (section 8) and
the in-source test `mode_equality` hold. -/
def borderDeletion (ks : List ℚ) : Except BSplineError (List ℚ) :=
  if ks.length < 2 then .error .invalidNumberKnots
  else .ok (ks.drop 1).dropLast

/-- The curve aggregate `BSpline` (spec section 3): control elements, the
adapted (logical) knot sequence, the degree and the workspace length. -/
structure BSpline where
  elements : List ℚ
  knots : List ℚ
  degree : ℕ
  spaceLen : ℕ
deriving DecidableEq, Repr

/-- Modelled from the spec: the terminal validation `BSpline::new`
(spec sections 4.5 and 7, not under src/). The degree convention over the
adapted knot sequence is `d = knots.len() - elements.len() + 1`, as pinned by
the in-source builder arithmetic (`quantity` stores exactly this value,
`dynamic` sizes the workspace as `knots.len() - elements.len() + 2 = d + 1`)
and by the in-source tests (`mode_equality` builds an open curve from 3
elements and 4 knots of degree 2). Checks, in order: the degree is at least 1
(`InvalidDegree`), there are at least `d + 1` control elements
(`TooFewElements`), and the workspace holds at least `d + 1` slots
(`TooSmallWorkspace`). -/
def BSpline.new (elements knots : List ℚ) (spaceLen : ℕ) :
    Except BSplineError BSpline :=
  let dZ : ℤ := (knots.length : ℤ) - elements.length + 1
  if dZ < 1 then .error (.invalidDegree dZ)
  else
    let d : ℕ := knots.length - elements.length + 1
    if elements.length < d + 1 then .error .tooFewElements
    else if spaceLen < d + 1 then .error .tooSmallWorkspace
    else .ok ⟨elements, knots, d, spaceLen⟩

/-- The eager open-mode chain `elements(..).knots(..)` followed by `build()`
(src/bspline/builder.rs: `knots` lines 307-319 wraps the knots in the
sortedness guard; `build` lines 871-873 calls `BSpline::new`). -/
def buildOpen (elements knots : List ℚ) (cap : ℕ) :
    Except BSplineError BSpline :=
  (sortedNew knots).bind fun ks => BSpline.new elements ks cap

/-- `BSplineDirector::knots` in `Clamped` mode (src/bspline/builder.rs, lines
364-380): rejects with `InvalidDegree(elements.len() as isize - knots.len()
as isize + 1)` when there are fewer elements than core knots, otherwise wraps
the sorted core in a `BorderBuffer` with `elements.len() - knots.len()`
duplicates. -/
def clampedKnots (elementsLen : ℕ) (knots : List ℚ) :
    Except BSplineError (List ℚ) :=
  if elementsLen < knots.length then
    .error (.invalidDegree ((elementsLen : ℤ) - knots.length + 1))
  else
    (sortedNew knots).map fun ks => borderBuffer ks (elementsLen - knots.length)

/-- The eager clamped-mode chain `clamped().elements(..).knots(..)` followed
by `build()`. -/
def buildClamped (elements knots : List ℚ) (cap : ℕ) :
    Except BSplineError BSpline :=
  (clampedKnots elements.length knots).bind fun ks => BSpline.new elements ks cap

/-- The eager legacy-mode chain `legacy().elements(..).knots(..)` followed by
`build()` (src/bspline/builder.rs, lines 424-436: the knots are wrapped in the
sortedness guard and then in `BorderDeletion`). -/
def buildLegacy (elements knots : List ℚ) (cap : ℕ) :
    Except BSplineError BSpline :=
  (sortedNew knots).bind fun ks =>
    (borderDeletion ks).bind fun ks2 => BSpline.new elements ks2 cap

/-- Modelled from the spec: the lower domain bound `knot[d]` of the classical
knot vector (spec section 3), which on the crate's adapted (border-trimmed)
knot sequence is the knot at index `d - 1`. -/
def BSpline.domainMin (c : BSpline) : ℚ :=
  c.knots.getD (c.degree - 1) 0

/-- Modelled from the spec: the upper domain bound `knot[m-d-1]` of the
classical knot vector (spec section 3), which on the adapted sequence is the
knot at index `elements.len() - 1`. -/
def BSpline.domainMax (c : BSpline) : ℚ :=
  c.knots.getD (c.elements.length - 1) 0

/-- Modelled from the spec: a parameter outside the domain is clamped to the
nearest domain bound before evaluation (spec sections 4.3 and 7). -/
def BSpline.clampParam (c : BSpline) (t : ℚ) : ℚ :=
  max c.domainMin (min c.domainMax t)

/-- Modelled from the spec: step 1 of De Boor evaluation (spec section 4.3):
the largest span index `s` in the interior range `[d, m_classical - d - 1)`
with `knot[s] ≤ t`; on the adapted sequence the range is `[d, n)` and the
compared knot sits at index `s - 1`. Falls back to `d` when no index
qualifies. -/
def BSpline.findSpan (c : BSpline) (t : ℚ) : ℕ :=
  (List.range' c.degree (c.elements.length - c.degree)).foldl
    (fun s j => if c.knots.getD (j - 1) 0 ≤ t then j else s) c.degree

/-- Modelled from the spec: step 2 of De Boor evaluation (spec section 4.3):
control elements `[s - d, s]` are written into slots `0 .. d` of the
workspace buffer handed out by the space provider. -/
def deBoorInit (c : BSpline) (s : ℕ) (b : List ℚ) : List ℚ :=
  (List.range (c.degree + 1)).foldl
    (fun w i => w.set i (c.elements.getD (s - c.degree + i) 0)) b

/-- Modelled from the spec: one blending assignment of step 3 of De Boor
evaluation (spec section 4.3), on the adapted (border-trimmed) knot indices:
`alpha = (t - knot[s-d+i]) / (knot[s+i-r+1] - knot[s-d+i])` over classical
indices, with `alpha = 0` on a zero denominator, then
`workspace[i] = (1-alpha)*workspace[i-1] + alpha*workspace[i]`. -/
def deBoorStep (c : BSpline) (t : ℚ) (s r i : ℕ) (w : List ℚ) : List ℚ :=
  let a := c.knots.getD (s - c.degree + i - 1) 0
  let bk := c.knots.getD (s + i - r) 0
  let alpha := if bk - a = 0 then 0 else (t - a) / (bk - a)
  w.set i ((1 - alpha) * w.getD (i - 1) 0 + alpha * w.getD i 0)

/-- Modelled from the spec: pass `r` of step 3 of De Boor evaluation
(spec section 4.3): `i` runs from `d` down to `r`. -/
def deBoorPass (c : BSpline) (t : ℚ) (s r : ℕ) (w : List ℚ) : List ℚ :=
  ((List.range' r (c.degree - r + 1)).reverse).foldl
    (fun w i => deBoorStep c t s r i w) w

/-- Modelled from the spec: step 3 of De Boor evaluation (spec section 4.3):
passes `r = 1 .. d` over the workspace. -/
def deBoorRun (c : BSpline) (t : ℚ) (s : ℕ) (w : List ℚ) : List ℚ :=
  (List.range' 1 c.degree).foldl (fun w r => deBoorPass c t s r w) w

/-- Modelled from the spec: De Boor evaluation of an already-clamped
parameter `u` on a given workspace buffer `b`; the result is slot `d`
(spec section 4.3, step 4). -/
def BSpline.evalUnclamped (c : BSpline) (u : ℚ) (b : List ℚ) : ℚ :=
  (deBoorRun c u (c.findSpan u) (deBoorInit c (c.findSpan u) b)).getD c.degree 0

/-- Modelled from the spec: full evaluation of parameter `t` on workspace
buffer `b`: clamp into the domain, then run De Boor (spec section 4.3). -/
def BSpline.evalWith (c : BSpline) (t : ℚ) (b : List ℚ) : ℚ :=
  c.evalUnclamped (c.clampParam t) b

/-- Modelled from the spec: `evaluate(t)` using the buffer the curve's space
provider hands out, a default-initialized buffer of the provider's length
(spec sections 4.2 and 4.3). -/
def BSpline.eval (c : BSpline) (t : ℚ) : ℚ :=
  c.evalWith t (List.replicate c.spaceLen default)

/-- The deferred builder `BSplineBuilder` (src/bspline/builder.rs, lines
95-98): it carries `Result<BSplineDirector, BSplineError>`. The director
state is abstracted by `σ`, covering every staged configuration type. -/
structure BSplineBuilder (σ : Type) where
  inner : Except BSplineError σ

/-- One configuration call on the deferred builder: every `BSplineBuilder`
method in the source has the shape `self.inner.and_then(|director| ...)`
(e.g. src/bspline/builder.rs, lines 337-347), where the closure is the
corresponding eager director method (infallible methods wrapped in `Ok`). -/
def BSplineBuilder.step {σ : Type} (b : BSplineBuilder σ)
    (f : σ → Except BSplineError σ) : BSplineBuilder σ :=
  ⟨b.inner.bind f⟩

/-- `BSplineBuilder::build` (src/bspline/builder.rs, lines 884-890): return
the remembered error, otherwise run the director's terminal build. -/
def BSplineBuilder.buildWith {σ κ : Type} (b : BSplineBuilder σ)
    (bf : σ → Except BSplineError κ) : Except BSplineError κ :=
  match b.inner with
  | .error e => .error e
  | .ok d => bf d

/-- The eager director chain: each fallible step surfaces its error
immediately and short-circuits the subsequent calls (the `?`-style use of
`BSplineDirector`). -/
def eagerRun {σ : Type} :
    List (σ → Except BSplineError σ) → σ → Except BSplineError σ
  | [], s => .ok s
  | f :: fs, s =>
    match f s with
    | .error e => .error e
    | .ok s2 => eagerRun fs s2

/-- The eager chain followed by the eager terminal build. -/
def eagerBuild {σ κ : Type} (fs : List (σ → Except BSplineError σ)) (s : σ)
    (bf : σ → Except BSplineError κ) : Except BSplineError κ :=
  match eagerRun fs s with
  | .error e => .error e
  | .ok d => bf d

/-- The deferred chain: start from a fresh builder
(`BSplineBuilder::new`, src/bspline/builder.rs, lines 124-131, which wraps
`Ok(BSplineDirector::new())`) and apply every configuration call. -/
def deferredRun {σ : Type} (fs : List (σ → Except BSplineError σ)) (s : σ) :
    BSplineBuilder σ :=
  fs.foldl BSplineBuilder.step ⟨.ok s⟩

/-- The curve of the in-source test `mode_equality`
(src/bspline/builder.rs, lines 944-970): control elements `[1, 3, 7]`,
adapted knots `[0, 0, 1, 1]`, degree 2, workspace length 3. -/
def exampleCurve : BSpline := ⟨[1, 3, 7], [0, 0, 1, 1], 2, 3⟩

/-- Two workspace buffers agree on every slot the De Boor recurrence of a
degree-`d` curve may touch (slots `0 .. d`). -/
def BufEq (d : ℕ) (b1 b2 : List ℚ) : Prop :=
  ∀ j, j ≤ d → b1.getD j 0 = b2.getD j 0

lemma BSplineBuilder.step_error {σ : Type} (e : BSplineError)
    (f : σ → Except BSplineError σ) :
    BSplineBuilder.step ⟨.error e⟩ f = ⟨.error e⟩ := rfl

lemma foldl_step_error {σ : Type} (fs : List (σ → Except BSplineError σ))
    (e : BSplineError) :
    fs.foldl BSplineBuilder.step ⟨.error e⟩ = (⟨.error e⟩ : BSplineBuilder σ) := by
  induction fs with
  | nil => rfl
  | cons f fs ih => simpa [BSplineBuilder.step_error] using ih

/-- The deferred chain remembers exactly what the eager chain computes. -/
lemma deferredRun_inner {σ : Type} (fs : List (σ → Except BSplineError σ))
    (s : σ) : (deferredRun fs s).inner = eagerRun fs s := by
  induction fs generalizing s with
  | nil => rfl
  | cons f fs ih =>
    show (List.foldl BSplineBuilder.step ⟨(Except.ok s).bind f⟩ fs).inner = _
    cases h : f s with
    | error e =>
      simp only [eagerRun, h, Except.bind, foldl_step_error]
    | ok s2 =>
      simp only [eagerRun, h, Except.bind]
      exact ih s2

lemma getD_set_self (l : List ℚ) (i : ℕ) (v d : ℚ) (h : i < l.length) :
    (l.set i v).getD i d = v := by
  simp [List.getD_eq_getElem?_getD, List.getElem?_set, h]

lemma getD_set_ne (l : List ℚ) (i j : ℕ) (v d : ℚ) (h : j ≠ i) :
    (l.set i v).getD j d = l.getD j d := by
  simp [List.getD_eq_getElem?_getD, List.getElem?_set, Ne.symm h]

lemma length_foldl_set (g : ℕ → ℚ) (l : List ℕ) (b : List ℚ) :
    (l.foldl (fun w i => w.set i (g i)) b).length = b.length := by
  induction l generalizing b with
  | nil => rfl
  | cons i l ih => simp [List.foldl_cons, ih]

lemma length_deBoorStep (c : BSpline) (t : ℚ) (s r i : ℕ) (b : List ℚ) :
    (deBoorStep c t s r i b).length = b.length := by
  simp [deBoorStep]

lemma length_foldl_deBoorStep (c : BSpline) (t : ℚ) (s r : ℕ) (l : List ℕ)
    (b : List ℚ) :
    (l.foldl (fun w i => deBoorStep c t s r i w) b).length = b.length := by
  induction l generalizing b with
  | nil => rfl
  | cons i l ih => simp [List.foldl_cons, ih, length_deBoorStep]

lemma length_deBoorPass (c : BSpline) (t : ℚ) (s r : ℕ) (b : List ℚ) :
    (deBoorPass c t s r b).length = b.length :=
  length_foldl_deBoorStep c t s r _ b

lemma length_deBoorRun (c : BSpline) (t : ℚ) (s : ℕ) (b : List ℚ) :
    (deBoorRun c t s b).length = b.length := by
  unfold deBoorRun
  induction (List.range' 1 c.degree) generalizing b with
  | nil => rfl
  | cons r l ih => simp [List.foldl_cons, ih, length_deBoorPass]

lemma deBoorStep_bufEq (c : BSpline) (t : ℚ) (s r i : ℕ)
    (hi : i ≤ c.degree) (b1 b2 : List ℚ)
    (hl1 : c.degree + 1 ≤ b1.length) (hl2 : c.degree + 1 ≤ b2.length)
    (h : BufEq c.degree b1 b2) :
    BufEq c.degree (deBoorStep c t s r i b1) (deBoorStep c t s r i b2) := by
  intro j hj
  unfold deBoorStep
  by_cases hji : j = i
  · subst hji
    rw [getD_set_self _ _ _ _ (by omega), getD_set_self _ _ _ _ (by omega)]
    rw [h (j - 1) (by omega), h j hj]
  · rw [getD_set_ne _ _ _ _ _ hji, getD_set_ne _ _ _ _ _ hji]
    exact h j hj

lemma foldl_deBoorStep_bufEq (c : BSpline) (t : ℚ) (s r : ℕ) (l : List ℕ)
    (hl : ∀ i ∈ l, i ≤ c.degree) (b1 b2 : List ℚ)
    (hl1 : c.degree + 1 ≤ b1.length) (hl2 : c.degree + 1 ≤ b2.length)
    (h : BufEq c.degree b1 b2) :
    BufEq c.degree (l.foldl (fun w i => deBoorStep c t s r i w) b1)
      (l.foldl (fun w i => deBoorStep c t s r i w) b2) := by
  induction l generalizing b1 b2 with
  | nil => exact h
  | cons i l ih =>
    simp only [List.foldl_cons]
    exact ih (fun x hx => hl x (List.mem_cons_of_mem i hx))
      (deBoorStep c t s r i b1) (deBoorStep c t s r i b2)
      (by rw [length_deBoorStep]; exact hl1)
      (by rw [length_deBoorStep]; exact hl2)
      (deBoorStep_bufEq c t s r i (hl i (List.mem_cons_self i l)) b1 b2 hl1 hl2 h)

lemma deBoorPass_bufEq (c : BSpline) (t : ℚ) (s r : ℕ) (hr : r ≤ c.degree)
    (b1 b2 : List ℚ)
    (hl1 : c.degree + 1 ≤ b1.length) (hl2 : c.degree + 1 ≤ b2.length)
    (h : BufEq c.degree b1 b2) :
    BufEq c.degree (deBoorPass c t s r b1) (deBoorPass c t s r b2) := by
  unfold deBoorPass
  apply foldl_deBoorStep_bufEq c t s r _ _ b1 b2 hl1 hl2 h
  intro i hi
  have := List.mem_range'_1.mp (List.mem_reverse.mp hi)
  omega

lemma foldl_deBoorPass_bufEq (c : BSpline) (t : ℚ) (s : ℕ) (l : List ℕ)
    (hl : ∀ r ∈ l, r ≤ c.degree) (b1 b2 : List ℚ)
    (hl1 : c.degree + 1 ≤ b1.length) (hl2 : c.degree + 1 ≤ b2.length)
    (h : BufEq c.degree b1 b2) :
    BufEq c.degree (l.foldl (fun w r => deBoorPass c t s r w) b1)
      (l.foldl (fun w r => deBoorPass c t s r w) b2) := by
  induction l generalizing b1 b2 with
  | nil => exact h
  | cons r l ih =>
    simp only [List.foldl_cons]
    exact ih (fun x hx => hl x (List.mem_cons_of_mem r hx))
      (deBoorPass c t s r b1) (deBoorPass c t s r b2)
      (by rw [length_deBoorPass]; exact hl1)
      (by rw [length_deBoorPass]; exact hl2)
      (deBoorPass_bufEq c t s r (hl r (List.mem_cons_self r l)) b1 b2 hl1 hl2 h)

lemma deBoorRun_bufEq (c : BSpline) (t : ℚ) (s : ℕ) (b1 b2 : List ℚ)
    (hl1 : c.degree + 1 ≤ b1.length) (hl2 : c.degree + 1 ≤ b2.length)
    (h : BufEq c.degree b1 b2) :
    BufEq c.degree (deBoorRun c t s b1) (deBoorRun c t s b2) := by
  unfold deBoorRun
  apply foldl_deBoorPass_bufEq c t s _ _ b1 b2 hl1 hl2 h
  intro r hr
  have := List.mem_range'_1.mp hr
  omega

lemma foldl_set_bufEq (g : ℕ → ℚ) (d : ℕ) (l : List ℕ)
    (hl : ∀ i ∈ l, i ≤ d) (b1 b2 : List ℚ)
    (hl1 : d + 1 ≤ b1.length) (hl2 : d + 1 ≤ b2.length)
    (h : ∀ j, j ≤ d → j ∈ l ∨ b1.getD j 0 = b2.getD j 0) :
    BufEq d (l.foldl (fun w i => w.set i (g i)) b1)
      (l.foldl (fun w i => w.set i (g i)) b2) := by
  induction l generalizing b1 b2 with
  | nil =>
    intro j hj
    rcases h j hj with h2 | h2
    · cases h2
    · exact h2
  | cons i l ih =>
    simp only [List.foldl_cons]
    have hid : i ≤ d := hl i (List.mem_cons_self i l)
    apply ih (fun x hx => hl x (List.mem_cons_of_mem i hx))
      (b1.set i (g i)) (b2.set i (g i)) (by simpa using hl1) (by simpa using hl2)
    intro j hj
    rcases h j hj with hmem | heq
    · rcases List.mem_cons.mp hmem with rfl | hmem2
      · right
        rw [getD_set_self _ _ _ _ (by omega), getD_set_self _ _ _ _ (by omega)]
      · left; exact hmem2
    · by_cases hji : j = i
      · subst hji
        right
        rw [getD_set_self _ _ _ _ (by omega), getD_set_self _ _ _ _ (by omega)]
      · right
        rw [getD_set_ne _ _ _ _ _ hji, getD_set_ne _ _ _ _ _ hji]
        exact heq

lemma deBoorInit_bufEq (c : BSpline) (s : ℕ) (b1 b2 : List ℚ)
    (hl1 : c.degree + 1 ≤ b1.length) (hl2 : c.degree + 1 ≤ b2.length) :
    BufEq c.degree (deBoorInit c s b1) (deBoorInit c s b2) := by
  unfold deBoorInit
  apply foldl_set_bufEq _ _ _ _ b1 b2 hl1 hl2
  · intro j hj
    exact Or.inl (List.mem_range.mpr (by omega))
  · intro i hi
    have := List.mem_range.mp hi
    omega

lemma evalUnclamped_bufEq (c : BSpline) (u : ℚ) (b1 b2 : List ℚ)
    (h1 : c.degree + 1 ≤ b1.length) (h2 : c.degree + 1 ≤ b2.length) :
    c.evalUnclamped u b1 = c.evalUnclamped u b2 := by
  unfold BSpline.evalUnclamped
  have hinit := deBoorInit_bufEq c (c.findSpan u) b1 b2 h1 h2
  have hrun := deBoorRun_bufEq c u (c.findSpan u) _ _
    (by unfold deBoorInit; rw [length_foldl_set]; exact h1)
    (by unfold deBoorInit; rw [length_foldl_set]; exact h2) hinit
  exact hrun c.degree le_rfl

lemma eagerRun_append_error {σ : Type} (fs gs : List (σ → Except BSplineError σ))
    (s : σ) (e : BSplineError) (h : eagerRun fs s = .error e) :
    eagerRun (fs ++ gs) s = .error e := by
  induction fs generalizing s with
  | nil => cases h
  | cons f fs ih =>
    simp only [List.cons_append, eagerRun] at h ⊢
    cases hf : f s with
    | error e2 => rw [hf] at h; exact h
    | ok s2 => rw [hf] at h; exact ih s2 h

/-- C1 (counterexample): the claim states that in open mode with equidistant
knots, `degree(d)` over `n` elements records a knot count of `n + d + 1` and
`quantity(q)` records a degree of `q - n - 1`. At `n = 3`, `d = 2`, `q = 6`
the source records a knot count of `4` (not `6`) and a degree of `4`
(not `2`). -/
theorem c1_open_equidistant_counterexample :
    (BSplineDirector.degree 3 2).len ≠ 3 + 2 + 1 ∧
    (BSplineDirector.quantity 3 6).deg ≠ 6 - 3 - 1 := by
  decide

/-- C1 (amended): for an open-mode curve with equidistant knots over `n ≥ 1`
control elements, `degree(d)` records knot count `m = n + d - 1` (so
`d = m - n + 1`) together with degree `d`, and `quantity(q)` (for `q ≥ n`)
records knot count `q` together with degree `q - n + 1`. -/
theorem c1_open_equidistant_amended (n d q : ℕ) (hn : 1 ≤ n) (hq : n ≤ q) :
    (BSplineDirector.degree n d).len + 1 = n + d ∧
    (BSplineDirector.degree n d).deg = d ∧
    (BSplineDirector.quantity n q).len = q ∧
    (BSplineDirector.quantity n q).deg + n = q + 1 := by
  simp only [BSplineDirector.degree, BSplineDirector.quantity]
  refine ⟨by omega, trivial, trivial, by omega⟩

/-- C1 (witness): the amended degree formulas, instantiated at `n = 3`,
`d = 2`, `q = 6`. -/
theorem c1_open_equidistant_amended_witness :
    1 ≤ 3 ∧ 3 ≤ 6 ∧
    ((BSplineDirector.degree 3 2).len + 1 = 3 + 2 ∧
     (BSplineDirector.degree 3 2).deg = 2 ∧
     (BSplineDirector.quantity 3 6).len = 6 ∧
     (BSplineDirector.quantity 3 6).deg + 3 = 6 + 1) :=
  ⟨by decide, by decide, c1_open_equidistant_amended 3 2 6 (by decide) (by decide)⟩

/-- C2: with control elements `[1, 3, 7]`, the open curve with knots
`[0, 0, 1, 1]`, the clamped curve with core knots `[0, 1]` and the legacy
curve with knots `[0, 0, 0, 1, 1, 1]` (each with a workspace of capacity 3)
all construct successfully, and sampling each at the 10 evenly spaced
parameters `k/9`, `k = 0 .. 9`, of the domain `[0, 1]` yields equal values
(exactly, in the rational model). -/
theorem c2_mode_equality :
    ∃ c1 c2 c3 : BSpline,
      buildOpen [1, 3, 7] [0, 0, 1, 1] (constSpaceLen 3) = .ok c1 ∧
      buildClamped [1, 3, 7] [0, 1] (constSpaceLen 3) = .ok c2 ∧
      buildLegacy [1, 3, 7] [0, 0, 0, 1, 1, 1] (constSpaceLen 3) = .ok c3 ∧
      (List.range 10).map (fun k => c1.eval ((k : ℚ) / 9)) =
        (List.range 10).map (fun k => c2.eval ((k : ℚ) / 9)) ∧
      (List.range 10).map (fun k => c2.eval ((k : ℚ) / 9)) =
        (List.range 10).map (fun k => c3.eval ((k : ℚ) / 9)) := by
  refine ⟨exampleCurve, exampleCurve, exampleCurve, ?_, ?_, ?_, rfl, rfl⟩ <;> decide

/-- C3: the deferred builder is behaviorally identical to the eager director:
for every sequence of configuration calls the terminal `build()` of the
deferred chain equals the result of the eager chain; when some eager step
fails, the deferred chain (with arbitrary further configuration calls
appended) returns exactly that first error from `build()`; and a
configuration call on a builder already holding an error is a no-op. -/
theorem c3_builder_director_equivalence :
    (∀ (σ κ : Type) (fs : List (σ → Except BSplineError σ)) (s : σ)
        (bf : σ → Except BSplineError κ),
        (deferredRun fs s).buildWith bf = eagerBuild fs s bf) ∧
    (∀ (σ κ : Type) (fs gs : List (σ → Except BSplineError σ)) (s : σ)
        (bf : σ → Except BSplineError κ) (e : BSplineError),
        eagerRun fs s = .error e →
        (deferredRun (fs ++ gs) s).buildWith bf = .error e) ∧
    (∀ (σ : Type) (e : BSplineError) (f : σ → Except BSplineError σ),
        BSplineBuilder.step ⟨.error e⟩ f = ⟨.error e⟩) := by
  have key : ∀ (σ κ : Type) (fs : List (σ → Except BSplineError σ)) (s : σ)
      (bf : σ → Except BSplineError κ),
      (deferredRun fs s).buildWith bf = eagerBuild fs s bf := by
    intro σ κ fs s bf
    unfold BSplineBuilder.buildWith eagerBuild
    rw [deferredRun_inner]
  refine ⟨key, ?_, fun σ e f => rfl⟩
  intro σ κ fs gs s bf e h
  rw [key]
  unfold eagerBuild
  rw [eagerRun_append_error fs gs s e h]

/-- C3 (witness): a two-call chain whose first call fails with `NotSorted`;
the deferred build returns exactly that error. -/
theorem c3_builder_director_equivalence_witness :
    eagerRun [fun _ : ℕ => .error .notSorted] 0 = .error .notSorted ∧
    (deferredRun ([fun _ : ℕ => .error .notSorted] ++ [fun n => .ok (n + 1)])
        0).buildWith (fun n => .ok (n, n)) = .error .notSorted :=
  ⟨rfl, c3_builder_director_equivalence.2.1 ℕ (ℕ × ℕ)
    [fun _ => .error .notSorted] [fun n => .ok (n + 1)] 0
    (fun n => .ok (n, n)) .notSorted rfl⟩

/-- C4 (counterexample): the claim states that for every boundary mode,
construction fails with `InvalidDegree` whenever the mode's computed degree
is below 1. In clamped mode with equidistant knots and 3 elements,
`degree(0)` succeeds and records degree 0, and the following
`domain()/normalized()/distance()` call — which is infallible and cannot
return an error — panics from the `usize` underflow `deg() - 1`
(modelled as `none`) instead of failing with `InvalidDegree`. -/
theorem c4_invalid_degree_counterexample :
    BSplineDirector.degreeClamped 3 0 = some ⟨4, 0⟩ ∧
    (⟨4, 0⟩ : UnknownDomain).deg < 1 ∧
    BSplineDirector.clampedDomainDup ⟨4, 0⟩ = none := by
  decide

/-- C4 (amended): a computed degree below 1 never yields a curve: the clamped
`knots(K)` call fails with `InvalidDegree` exactly when the element count is
below the core knot count (`k = n - L` would be negative); the terminal
validation fails with `InvalidDegree` whenever the degree formula over the
adapted knots gives a value below 1; but the clamped equidistant path with a
stored degree of 0 underflow-panics in `domain()/normalized()/distance()`
(which return no error value) instead of reporting `InvalidDegree`. -/
theorem c4_invalid_degree_amended :
    (∀ (n : ℕ) (ks : List ℚ),
        (∃ z, clampedKnots n ks = .error (.invalidDegree z)) ↔ n < ks.length) ∧
    (∀ (el ks : List ℚ) (cap : ℕ), ((ks.length : ℤ) - el.length + 1) < 1 →
        BSpline.new el ks cap =
          .error (.invalidDegree ((ks.length : ℤ) - el.length + 1))) ∧
    (∀ u : UnknownDomain, u.deg < 1 →
        BSplineDirector.clampedDomainDup u = none) := by
  refine ⟨?_, ?_, ?_⟩
  · intro n ks
    constructor
    · rintro ⟨z, hz⟩
      by_contra h
      unfold clampedKnots at hz
      rw [if_neg h] at hz
      unfold sortedNew at hz
      by_cases hsc : sortedCheck ks
      · rw [if_pos hsc] at hz
        simp [Except.map] at hz
      · rw [if_neg hsc] at hz
        simp [Except.map] at hz
    · intro h
      exact ⟨_, by unfold clampedKnots; rw [if_pos h]⟩
  · intro el ks cap h
    simp only [BSpline.new]
    rw [if_pos h]
  · intro u h
    unfold BSplineDirector.clampedDomainDup
    rw [if_pos (by omega)]

/-- C4 (witness): the amended theorem's terminal-validation part applied to
2 elements and an empty adapted knot sequence, where the degree formula
gives `-1 < 1`. -/
theorem c4_invalid_degree_amended_witness :
    ((([] : List ℚ).length : ℤ) - ([1, 2] : List ℚ).length + 1 < 1) ∧
    BSpline.new [1, 2] [] 7 = .error (.invalidDegree (-1)) := by
  refine ⟨by decide, ?_⟩
  have h := c4_invalid_degree_amended.2.1 [1, 2] [] 7 (by decide)
  simpa using h

/-- C5: for every curve whose domain is non-degenerate, evaluating at a
parameter below the domain minimum returns the same element as evaluating at
the minimum, and evaluating above the domain maximum returns the same element
as evaluating at the maximum (evaluation clamps, it never rejects: `eval` is
total). -/
theorem c5_out_of_domain_clamps (c : BSpline) (t : ℚ)
    (hdom : c.domainMin ≤ c.domainMax) :
    (t < c.domainMin → c.eval t = c.eval c.domainMin) ∧
    (c.domainMax < t → c.eval t = c.eval c.domainMax) := by
  constructor
  · intro ht
    unfold BSpline.eval BSpline.evalWith
    have h1 : c.clampParam t = c.domainMin := by
      unfold BSpline.clampParam
      rw [min_eq_right (le_of_lt (lt_of_lt_of_le ht hdom)),
        max_eq_left (le_of_lt ht)]
    have h2 : c.clampParam c.domainMin = c.domainMin := by
      unfold BSpline.clampParam
      rw [min_eq_right hdom, max_self]
    rw [h1, h2]
  · intro ht
    unfold BSpline.eval BSpline.evalWith
    have h1 : c.clampParam t = c.domainMax := by
      unfold BSpline.clampParam
      rw [min_eq_left (le_of_lt ht), max_eq_right hdom]
    have h2 : c.clampParam c.domainMax = c.domainMax := by
      unfold BSpline.clampParam
      rw [min_self, max_eq_right hdom]
    rw [h1, h2]

/-- C5 (witness): the `mode_equality` curve has domain `[0, 1]`; evaluating
at `-1` equals evaluating at the domain minimum. -/
theorem c5_out_of_domain_clamps_witness :
    exampleCurve.domainMin ≤ exampleCurve.domainMax ∧
    (-1 : ℚ) < exampleCurve.domainMin ∧
    exampleCurve.eval (-1) = exampleCurve.eval exampleCurve.domainMin :=
  ⟨by decide, by decide,
    (c5_out_of_domain_clamps exampleCurve (-1) (by decide)).1 (by decide)⟩

/-- C6: when `dynamic()` is selected with `n` elements and `k ≥ n` stored
knots, it records a workspace capacity of exactly `k - n + 2`, and every call
to `DynSpace::workspace()` — `DynSpace` holds nothing but that length —
returns a buffer of exactly that length with every slot default-initialized,
the same on any call of any call sequence. -/
theorem c6_dynamic_workspace (k n : ℕ) (h : n ≤ k) :
    ∃ s : DynSpace,
      BSplineDirector.dynamic k n = some s ∧
      s.len = k - n + 2 ∧
      DynSpace.workspace ℚ s = List.replicate (k - n + 2) (default : ℚ) ∧
      ∀ calls : ℕ,
        (List.range calls).map (fun _ => DynSpace.workspace ℚ s) =
          List.replicate calls (List.replicate (k - n + 2) (default : ℚ)) := by
  refine ⟨⟨k - n + 2⟩, ?_, rfl, rfl, ?_⟩
  · unfold BSplineDirector.dynamic
    rw [if_pos h]
  · intro calls
    simp [DynSpace.workspace, List.map_const']

/-- C6 (witness): the dynamic workspace over 3 elements and 4 knots. -/
theorem c6_dynamic_workspace_witness :
    3 ≤ 4 ∧
    ∃ s : DynSpace,
      BSplineDirector.dynamic 4 3 = some s ∧
      s.len = 4 - 3 + 2 ∧
      DynSpace.workspace ℚ s = List.replicate (4 - 3 + 2) (default : ℚ) ∧
      ∀ calls : ℕ,
        (List.range calls).map (fun _ => DynSpace.workspace ℚ s) =
          List.replicate calls (List.replicate (4 - 3 + 2) (default : ℚ)) :=
  ⟨by decide, c6_dynamic_workspace 4 3 (by decide)⟩

/-- C7: for a fixed-capacity workspace of capacity `N` and an otherwise-valid
configuration (the degree formula gives at least 1 and there are enough
elements for it), the terminal validation returns `TooSmallWorkspace` exactly
when `N < d + 1`. -/
theorem c7_const_workspace_check (el ks : List ℚ) (N : ℕ)
    (h1 : el.length ≤ ks.length) (h2 : ks.length + 2 ≤ 2 * el.length) :
    (BSpline.new el ks (constSpaceLen N) = .error .tooSmallWorkspace) ↔
      N < (ks.length - el.length + 1) + 1 := by
  simp only [BSpline.new, constSpaceLen]
  rw [if_neg (by omega), if_neg (by omega)]
  by_cases hN : N < ks.length - el.length + 1 + 1
  · rw [if_pos hN]
    simp [hN]
  · rw [if_neg hN]
    simp [hN]

/-- C7 (witness): 3 elements, 4 adapted knots (degree 2): capacity 2 is
rejected with `TooSmallWorkspace`, capacity 3 is not. -/
theorem c7_const_workspace_check_witness :
    ([1, 2, 3] : List ℚ).length ≤ ([0, 0, 1, 1] : List ℚ).length ∧
    ([0, 0, 1, 1] : List ℚ).length + 2 ≤ 2 * ([1, 2, 3] : List ℚ).length ∧
    BSpline.new [1, 2, 3] [0, 0, 1, 1] (constSpaceLen 2) =
      .error .tooSmallWorkspace ∧
    BSpline.new [1, 2, 3] [0, 0, 1, 1] (constSpaceLen 3) ≠
      .error .tooSmallWorkspace := by
  refine ⟨by decide, by decide, ?_, ?_⟩
  · exact (c7_const_workspace_check [1, 2, 3] [0, 0, 1, 1] 2
      (by decide) (by decide)).mpr (by decide)
  · intro hcon
    exact absurd ((c7_const_workspace_check [1, 2, 3] [0, 0, 1, 1] 3
      (by decide) (by decide)).mp hcon) (by decide)

/-- C8 (counterexample): the claim states that building with 1 element, 1
knot and a constant workspace of capacity 2 fails with an insufficient-degree
error. The degree formula over this configuration gives exactly 1 (not below
1), the build returns the `TooFewElements` error, and that returned error is
not of the `InvalidDegree` kind. -/
theorem c8_degenerate_error_kind_counterexample :
    ((([1] : List ℚ).length : ℤ) - ([1] : List ℚ).length + 1) = 1 ∧
    buildOpen [1] [1] (constSpaceLen 2) = .error .tooFewElements ∧
    (match buildOpen [1] [1] (constSpaceLen 2) with
      | .error e => e.isInvalidDegree
      | .ok _ => true) = false := by
  refine ⟨by decide, by decide, by decide⟩

/-- C8 (amended): the degenerate constructions never yield a curve: zero
elements with zero knots fails for every workspace capacity with the
`TooFewElements` error, and one element with one knot and a constant
workspace of capacity 2 fails with the `TooFewElements` error (the
configuration has degree 1 but fewer than degree + 1 control elements) —
not with an insufficient-degree error. -/
theorem c8_degenerate_creations_amended :
    (∀ N : ℕ, buildOpen [] [] N = .error .tooFewElements) ∧
    buildOpen [1] [1] (constSpaceLen 2) = .error .tooFewElements := by
  constructor
  · intro N
    rfl
  · decide

/-- C9: evaluation is deterministic and history-independent:
`ConstSpace::workspace()` always returns the length-`N` array of default
values and `DynSpace::workspace()` always returns the length-`len` vector of
default values (both are functions of the space descriptor alone, so no call
history can change them), and the evaluation result does not depend on the
contents of the workspace buffer handed to it — any two adequate buffers,
however dirtied by previous use, give the same value, so repeated evaluation
at the same parameter is identical. -/
theorem c9_evaluation_history_independent :
    (∀ N : ℕ, constSpaceWorkspace ℚ N = List.replicate N (default : ℚ)) ∧
    (∀ s : DynSpace, DynSpace.workspace ℚ s = List.replicate s.len (default : ℚ)) ∧
    (∀ (c : BSpline) (t : ℚ) (b1 b2 : List ℚ),
        c.degree + 1 ≤ b1.length → c.degree + 1 ≤ b2.length →
        c.evalWith t b1 = c.evalWith t b2) := by
  refine ⟨fun N => rfl, fun s => rfl, fun c t b1 b2 h1 h2 => ?_⟩
  unfold BSpline.evalWith
  exact evalUnclamped_bufEq c (c.clampParam t) b1 b2 h1 h2

/-- C9 (witness): on the `mode_equality` curve, evaluating with a dirty
buffer `[17, -4, 9]` equals evaluating with the zeroed buffer. -/
theorem c9_evaluation_history_independent_witness :
    exampleCurve.degree + 1 ≤ ([17, -4, 9] : List ℚ).length ∧
    exampleCurve.degree + 1 ≤ ([0, 0, 0] : List ℚ).length ∧
    exampleCurve.evalWith (1 / 2) [17, -4, 9] =
      exampleCurve.evalWith (1 / 2) [0, 0, 0] :=
  ⟨by decide, by decide,
    c9_evaluation_history_independent.2.2 exampleCurve (1 / 2)
      [17, -4, 9] [0, 0, 0] (by decide) (by decide)⟩

/-- C10 (counterexample): the claim states that `dynamic()` does not panic
when `elements.len() ≤ knots.len() + 2`. With 1 knot and 2 elements that
bound holds (`2 ≤ 3`), yet the source evaluates `knots.len() -
elements.len()` first, which underflows (modelled as `none`). -/
theorem c10_dynamic_underflow_counterexample :
    (2 : ℕ) ≤ 1 + 2 ∧ BSplineDirector.dynamic 1 2 = none := by
  decide

/-- C10 (amended): `dynamic()` underflow-panics exactly when the element
count exceeds the knot count (the `usize` subtraction
`knots.len() - elements.len()` is evaluated before `+ 2`); with at most as
many elements as knots it does not panic. -/
theorem c10_dynamic_underflow_amended (k n : ℕ) :
    BSplineDirector.dynamic k n = none ↔ k < n := by
  unfold BSplineDirector.dynamic
  by_cases h : n ≤ k
  · rw [if_pos h]
    simp
    omega
  · rw [if_neg h]
    simp
    omega

end Enterpolation
